import Mathlib

/-!
Shallow embedding of the garage-door-automation core:
the contact-sensor registry (`contactsensor/contactsensor.py`), the MQTT
report handler (`contactsensor/mqtt.py`, `util.py`), and the three door
actions (`action/action.py`).

Asynchronous waits are embedded with explicit oracle parameters: for each
`asyncio.Event` wait, `notified : Bool` says whether the event fired within
the timeout, and a registry snapshot gives the state seen when the waiter
resumes (the spec guarantees the waiter sees a state at least as new as the
triggering report, but not which one, so the snapshot is universally
quantified).
-/

namespace GarageDoorAutomation

/-- `contactsensor/position.py`: the `Position` enum. -/
inductive Position where
  | FULLY_CLOSED
  | SLIGHTLY_OPENED
  | FULLY_OPENED
  | BACK_YARD_DOOR
deriving DecidableEq, Repr

/-- `contactsensor/contactsensor.py`: the `ContactSensor` dataclass.
`is_contact` embeds the private `_is_contact` field (dataclass default
`False`); `event` embeds the `asyncio.Event`'s set flag (initially unset);
`last_updated_ns` embeds `last_updated_ns: int | None = None`.
The `position`, `nick_name` and webhook fields play no role in the claims
about state and are omitted; `mqtt_topic` is kept for topic lookup. -/
structure ContactSensor where
  is_contact : Bool := false
  last_updated_ns : Option Nat := none
  event : Bool := false
  mqtt_topic : String := ""
deriving DecidableEq, Repr

/-- `ContactSensor.set_is_contact`: store the value, stamp the current time,
and set the notification event.  `now_ns` stands for `time.time_ns()`. -/
def set_is_contact (s : ContactSensor) (is_contact : Bool) (now_ns : Nat) :
    ContactSensor :=
  { s with is_contact := is_contact, last_updated_ns := some now_ns, event := true }

/-- `ContactSensor.get_is_contact`: the body is `return self._is_contact`;
the declared return type is `bool | None`, so the embedded result type is
`Option Bool`, but the function always returns the stored boolean. -/
def get_is_contact (s : ContactSensor) : Option Bool :=
  some s.is_contact

/-- `ContactSensor.is_valid`: `False` when never updated, otherwise whether
the elapsed whole seconds (Python floor division `//`) are below the
configured `STATE_VALIDITY_SECONDS`. -/
def is_valid (s : ContactSensor) (now_ns : Nat) (state_validity_s : Nat) : Bool :=
  match s.last_updated_ns with
  | none => false
  | some t => decide ((((now_ns : Int) - (t : Int)).fdiv (10 ^ 9)) < (state_validity_s : Int))

/-- The `_SENSORS` registry restricted to its `Position` keys: after startup
it holds exactly one `ContactSensor` per `Position` member. -/
structure Sensors where
  fully_closed : ContactSensor
  slightly_opened : ContactSensor
  fully_opened : ContactSensor
  back_yard_door : ContactSensor
deriving DecidableEq, Repr

/-- `get_sensor(key)` for a `Position` key. -/
def get_sensor (reg : Sensors) : Position → ContactSensor
  | .FULLY_CLOSED => reg.fully_closed
  | .SLIGHTLY_OPENED => reg.slightly_opened
  | .FULLY_OPENED => reg.fully_opened
  | .BACK_YARD_DOOR => reg.back_yard_door

/-- Replace the sensor stored under one position. -/
def set_sensor (reg : Sensors) (p : Position) (s : ContactSensor) : Sensors :=
  match p with
  | .FULLY_CLOSED => { reg with fully_closed := s }
  | .SLIGHTLY_OPENED => { reg with slightly_opened := s }
  | .FULLY_OPENED => { reg with fully_opened := s }
  | .BACK_YARD_DOOR => { reg with back_yard_door := s }

/-- `at(position)`: `get_sensor(position).get_is_contact() == True`.
(In Python, `None == True` is `False`, so this is exactly equality with
`some true`.) -/
def atPos (reg : Sensors) (position : Position) : Bool :=
  get_is_contact (get_sensor reg position) == some true

/-- The `for` loop of `where`: first listed position whose sensor reads
contact, else `None`. -/
def where_list (reg : Sensors) : List Position → Option Position
  | [] => none
  | p :: rest => if atPos reg p then some p else where_list reg rest

/-- The default `positions_to_check` argument of `where`. -/
def canonical_positions : List Position :=
  [.FULLY_CLOSED, .SLIGHTLY_OPENED, .FULLY_OPENED]

/-- `where(positions_to_check=[FULLY_CLOSED, SLIGHTLY_OPENED, FULLY_OPENED])`
(`where` is a Lean keyword, hence the name). -/
def whereDoor (reg : Sensors)
    (positions_to_check : List Position := canonical_positions) : Option Position :=
  where_list reg positions_to_check

/-- `_enter(position, timeout_s)`.  `regStart` is the registry at entry,
`notified` whether `sensor.event` fired within `timeout_s` after the
`event.clear()` (the `asyncio.wait_for` call), and `regWake` the registry
seen after waking.  Branches, in source order: already-at is a caller error
(`False`), a timeout returns `False`, a wake with the position still not
read as contact is spurious (`False`), otherwise `True`. -/
def _enter (position : Position) (regStart : Sensors) (notified : Bool)
    (regWake : Sensors) : Bool :=
  if atPos regStart position then false
  else if !notified then false
  else if !atPos regWake position then false
  else true

/-- `_exit(position, timeout_s)`: symmetric to `_enter` with the contact
checks negated. -/
def _exit (position : Position) (regStart : Sensors) (notified : Bool)
    (regWake : Sensors) : Bool :=
  if !atPos regStart position then false
  else if !notified then false
  else if atPos regWake position then false
  else true

/-- Oracle data for one `expect_enter` / `expect_exit` call: the registry
when the call starts, whether the event fired within the (per-call) timeout,
and the registry seen at wake. -/
structure WaitEnv where
  regStart : Sensors
  notified : Bool
  regWake : Sensors
deriving DecidableEq, Repr

/-- One observable step of a door action, for recording execution traces:
a relay pulse (`trigger`), an `expect_enter`/`expect_exit` wait, or a final
`expect_at`/`expect_not_at` verification. -/
inductive Step where
  | pulse
  | waitEnter (p : Position)
  | waitExit (p : Position)
  | verifyAt (p : Position)
  | verifyNotAt (p : Position)
deriving DecidableEq, Repr

/-- How a door-action coroutine ends: an early `return` before any pulse
(`noop`), normal completion of the whole body (`done`), or an uncaught
`AssertionError` raised at the recorded step (`assertionError`), which
terminates the coroutine there. -/
inductive Outcome where
  | noop
  | done
  | assertionError (s : Step)
deriving DecidableEq, Repr

/-- An action run: the steps executed in order (a step that raised is
included) and the outcome. -/
structure Run where
  steps : List Step
  outcome : Outcome
deriving DecidableEq, Repr

/-- Oracle data for `to_fully_closed` / `to_fully_opened`: registry at
entry (`reg0`, read by `where()`), the probe `expect_enter` after the first
pulse (`probe`), the successive waits of the reversing branch
(`wait1`-`wait4`; `to_fully_closed` runs three waits there, so its `wait4`
is unused; `to_fully_opened` runs four), and the registry at final
verification (`regFinal`). -/
structure ActionEnv where
  reg0 : Sensors
  probe : WaitEnv
  wait1 : WaitEnv
  wait2 : WaitEnv
  wait3 : WaitEnv
  wait4 : WaitEnv
  regFinal : Sensors
deriving DecidableEq, Repr

/-- The final `expect_at(target); expect_not_at(o1); expect_not_at(o2)`
block of `to_fully_closed` (and, with `expect_at` dropped, the
`expect_not_at` pair of the other two actions is embedded separately).
The first failing assertion raises and stops the block. -/
def final_check_closed (prev : List Step) (reg : Sensors) : Run :=
  if !atPos reg .FULLY_CLOSED then
    { steps := prev ++ [.verifyAt .FULLY_CLOSED],
      outcome := .assertionError (.verifyAt .FULLY_CLOSED) }
  else if atPos reg .SLIGHTLY_OPENED then
    { steps := prev ++ [.verifyAt .FULLY_CLOSED, .verifyNotAt .SLIGHTLY_OPENED],
      outcome := .assertionError (.verifyNotAt .SLIGHTLY_OPENED) }
  else if atPos reg .FULLY_OPENED then
    { steps := prev ++ [.verifyAt .FULLY_CLOSED, .verifyNotAt .SLIGHTLY_OPENED,
                        .verifyNotAt .FULLY_OPENED],
      outcome := .assertionError (.verifyNotAt .FULLY_OPENED) }
  else
    { steps := prev ++ [.verifyAt .FULLY_CLOSED, .verifyNotAt .SLIGHTLY_OPENED,
                        .verifyNotAt .FULLY_OPENED],
      outcome := .done }

/-- `action/action.py` `to_fully_closed`:
early return iff `where() == FULLY_CLOSED`; pulse and sleep 1s; probe
`expect_enter(FULLY_OPENED)` with `AssertionError`/`TimeoutError` caught;
on probe success sleep 2s, pulse again, then (the `expect_exit(FULLY_OPENED)`
is commented out in the source) `expect_enter(SLIGHTLY_OPENED)`,
`expect_exit(SLIGHTLY_OPENED)`, `expect_enter(FULLY_CLOSED)`, whose failed
asserts are NOT caught; finally the verification block. -/
def to_fully_closed (env : ActionEnv) : Run :=
  if whereDoor env.reg0 = some .FULLY_CLOSED then
    { steps := [], outcome := .noop }
  else if !_enter .FULLY_OPENED env.probe.regStart env.probe.notified env.probe.regWake then
    final_check_closed [.pulse, .waitEnter .FULLY_OPENED] env.regFinal
  else if !_enter .SLIGHTLY_OPENED env.wait1.regStart env.wait1.notified env.wait1.regWake then
    { steps := [.pulse, .waitEnter .FULLY_OPENED, .pulse, .waitEnter .SLIGHTLY_OPENED],
      outcome := .assertionError (.waitEnter .SLIGHTLY_OPENED) }
  else if !_exit .SLIGHTLY_OPENED env.wait2.regStart env.wait2.notified env.wait2.regWake then
    { steps := [.pulse, .waitEnter .FULLY_OPENED, .pulse, .waitEnter .SLIGHTLY_OPENED,
                .waitExit .SLIGHTLY_OPENED],
      outcome := .assertionError (.waitExit .SLIGHTLY_OPENED) }
  else if !_enter .FULLY_CLOSED env.wait3.regStart env.wait3.notified env.wait3.regWake then
    { steps := [.pulse, .waitEnter .FULLY_OPENED, .pulse, .waitEnter .SLIGHTLY_OPENED,
                .waitExit .SLIGHTLY_OPENED, .waitEnter .FULLY_CLOSED],
      outcome := .assertionError (.waitEnter .FULLY_CLOSED) }
  else
    final_check_closed
      [.pulse, .waitEnter .FULLY_OPENED, .pulse, .waitEnter .SLIGHTLY_OPENED,
       .waitExit .SLIGHTLY_OPENED, .waitEnter .FULLY_CLOSED] env.regFinal

/-- The final block of `to_fully_opened`: `expect_at(FULLY_OPENED)` is
commented out in the source, so only `expect_not_at(FULLY_CLOSED)` and
`expect_not_at(SLIGHTLY_OPENED)` run. -/
def final_check_opened (prev : List Step) (reg : Sensors) : Run :=
  if atPos reg .FULLY_CLOSED then
    { steps := prev ++ [.verifyNotAt .FULLY_CLOSED],
      outcome := .assertionError (.verifyNotAt .FULLY_CLOSED) }
  else if atPos reg .SLIGHTLY_OPENED then
    { steps := prev ++ [.verifyNotAt .FULLY_CLOSED, .verifyNotAt .SLIGHTLY_OPENED],
      outcome := .assertionError (.verifyNotAt .SLIGHTLY_OPENED) }
  else
    { steps := prev ++ [.verifyNotAt .FULLY_CLOSED, .verifyNotAt .SLIGHTLY_OPENED],
      outcome := .done }

/-- `action/action.py` `to_fully_opened`: mirror of `to_fully_closed` with
closed/open swapped; its reversing branch does run
`expect_exit(FULLY_CLOSED)` (not commented out), then
`expect_enter(SLIGHTLY_OPENED)`, `expect_exit(SLIGHTLY_OPENED)`,
`expect_enter(FULLY_OPENED)`; the final block omits `expect_at`. -/
def to_fully_opened (env : ActionEnv) : Run :=
  if whereDoor env.reg0 = some .FULLY_OPENED then
    { steps := [], outcome := .noop }
  else if !_enter .FULLY_CLOSED env.probe.regStart env.probe.notified env.probe.regWake then
    final_check_opened [.pulse, .waitEnter .FULLY_CLOSED] env.regFinal
  else if !_exit .FULLY_CLOSED env.wait1.regStart env.wait1.notified env.wait1.regWake then
    { steps := [.pulse, .waitEnter .FULLY_CLOSED, .pulse, .waitExit .FULLY_CLOSED],
      outcome := .assertionError (.waitExit .FULLY_CLOSED) }
  else if !_enter .SLIGHTLY_OPENED env.wait2.regStart env.wait2.notified env.wait2.regWake then
    { steps := [.pulse, .waitEnter .FULLY_CLOSED, .pulse, .waitExit .FULLY_CLOSED,
                .waitEnter .SLIGHTLY_OPENED],
      outcome := .assertionError (.waitEnter .SLIGHTLY_OPENED) }
  else if !_exit .SLIGHTLY_OPENED env.wait3.regStart env.wait3.notified env.wait3.regWake then
    { steps := [.pulse, .waitEnter .FULLY_CLOSED, .pulse, .waitExit .FULLY_CLOSED,
                .waitEnter .SLIGHTLY_OPENED, .waitExit .SLIGHTLY_OPENED],
      outcome := .assertionError (.waitExit .SLIGHTLY_OPENED) }
  else if !_enter .FULLY_OPENED env.wait4.regStart env.wait4.notified env.wait4.regWake then
    { steps := [.pulse, .waitEnter .FULLY_CLOSED, .pulse, .waitExit .FULLY_CLOSED,
                .waitEnter .SLIGHTLY_OPENED, .waitExit .SLIGHTLY_OPENED,
                .waitEnter .FULLY_OPENED],
      outcome := .assertionError (.waitEnter .FULLY_OPENED) }
  else
    final_check_opened
      [.pulse, .waitEnter .FULLY_CLOSED, .pulse, .waitExit .FULLY_CLOSED,
       .waitEnter .SLIGHTLY_OPENED, .waitExit .SLIGHTLY_OPENED,
       .waitEnter .FULLY_OPENED] env.regFinal

/-- Outcome oracle for the `async with asyncio.timeout(timeout_s):` block
around `expect_enter(SLIGHTLY_OPENED)` in `to_slightly_opened`: either the
inner `expect_enter` finishes (with the oracle data `w` for its `_enter`
call) before the outer `FULLY_CLOSED_TO_SLIGHTLY_OPENED_TIMEOUT_SECONDS`
deadline, or the outer deadline fires first and `TimeoutError` is raised
and caught (`outerTimeout`). -/
inductive AjarWait where
  | completed (w : WaitEnv)
  | outerTimeout
deriving DecidableEq, Repr

/-- Oracle data for `to_slightly_opened`: registry at entry, the
`expect_exit(current_position)` wait, the guarded ajar wait, and the
registry at final verification (after the `IN_MOTION_SECONDS` sleep). -/
structure AjarEnv where
  reg0 : Sensors
  exitCur : WaitEnv
  ajar : AjarWait
  regFinal : Sensors
deriving DecidableEq, Repr

/-- The final block of `to_slightly_opened`: only
`expect_not_at(FULLY_CLOSED)` and `expect_not_at(FULLY_OPENED)`;
`expect_at(SLIGHTLY_OPENED)` is commented out in the source. -/
def final_check_ajar (prev : List Step) (reg : Sensors) : Run :=
  if atPos reg .FULLY_CLOSED then
    { steps := prev ++ [.verifyNotAt .FULLY_CLOSED],
      outcome := .assertionError (.verifyNotAt .FULLY_CLOSED) }
  else if atPos reg .FULLY_OPENED then
    { steps := prev ++ [.verifyNotAt .FULLY_CLOSED, .verifyNotAt .FULLY_OPENED],
      outcome := .assertionError (.verifyNotAt .FULLY_OPENED) }
  else
    { steps := prev ++ [.verifyNotAt .FULLY_CLOSED, .verifyNotAt .FULLY_OPENED],
      outcome := .done }

/-- `action/action.py` `to_slightly_opened`:
early returns when `where()` is `None`, `SLIGHTLY_OPENED` or `FULLY_OPENED`;
otherwise pulse, `expect_exit(current_position)` (failed assert NOT caught),
then `expect_enter(SLIGHTLY_OPENED)` inside `asyncio.timeout(...)` with
`except TimeoutError` and a `finally` that issues the stop pulse — so an
`AssertionError` from the inner `expect_enter` still pulses in the
`finally` but then propagates — then sleep and the final block. -/
def to_slightly_opened (env : AjarEnv) : Run :=
  match whereDoor env.reg0 with
  | none => { steps := [], outcome := .noop }
  | some current_position =>
    if current_position = .SLIGHTLY_OPENED then { steps := [], outcome := .noop }
    else if current_position = .FULLY_OPENED then { steps := [], outcome := .noop }
    else if !_exit current_position env.exitCur.regStart env.exitCur.notified
              env.exitCur.regWake then
      { steps := [.pulse, .waitExit current_position],
        outcome := .assertionError (.waitExit current_position) }
    else
      match env.ajar with
      | .outerTimeout =>
        final_check_ajar
          [.pulse, .waitExit current_position, .waitEnter .SLIGHTLY_OPENED, .pulse]
          env.regFinal
      | .completed w =>
        if _enter .SLIGHTLY_OPENED w.regStart w.notified w.regWake then
          final_check_ajar
            [.pulse, .waitExit current_position, .waitEnter .SLIGHTLY_OPENED, .pulse]
            env.regFinal
        else
          { steps := [.pulse, .waitExit current_position, .waitEnter .SLIGHTLY_OPENED,
                      .pulse],
            outcome := .assertionError (.waitEnter .SLIGHTLY_OPENED) }

/-- A decoded JSON value, as produced by `json.loads` (a JSON `null`
decodes to Python `None`). -/
inductive JValue where
  | null
  | bool (b : Bool)
  | num (n : Int)
  | str (s : String)
  | arr (elems : List JValue)
  | obj (fields : List (String × JValue))

/-- The raw payload of an inbound MQTT message, seen through the external
`json.loads` call: either not a `str`/`bytes`/`bytearray` at all, or bytes
that fail to decode as JSON, or bytes that decode to the given value. -/
inductive Payload where
  | notBytes
  | undecodable
  | decoded (v : JValue)

/-- An inbound MQTT message: topic plus payload. -/
structure Message where
  topic : String
  payload : Payload

/-- `util.py` `parse_payload`: assert the payload is `str`/`bytes`/
`bytearray` (AssertionError otherwise), `json.loads` it (JSONDecodeError on
failure), assert the result is a `dict` and every key a string (JSON object
keys are strings by construction, so that loop never fires). `Except Unit`
stands for the raised `AssertionError`/`JSONDecodeError`. -/
def parse_payload : Payload → Except Unit (List (String × JValue))
  | .notBytes => .error ()
  | .undecodable => .error ()
  | .decoded (.obj fields) => .ok fields
  | .decoded _ => .error ()

/-- Python `dict.get(key)` over the assoc list built by `json.loads`
(duplicate JSON keys: the last occurrence wins, as in dict construction). -/
def dict_get (fields : List (String × JValue)) (key : String) : Option JValue :=
  match fields.reverse.find? (fun kv => kv.1 == key) with
  | some kv => some kv.2
  | none => none

/-- `util.py` `get_bool` (via `_get_value`): `payload.get(key)` must be
neither absent nor `None` (a JSON `null` value reads as `None` too) and
must be a `bool`; otherwise an `AssertionError` is raised. -/
def get_bool (fields : List (String × JValue)) (key : String) : Except Unit Bool :=
  match dict_get fields key with
  | none => .error ()
  | some .null => .error ()
  | some (.bool b) => .ok b
  | some _ => .error ()

/-- All `Position` members, in enum order. -/
def all_positions : List Position :=
  [.FULLY_CLOSED, .SLIGHTLY_OPENED, .FULLY_OPENED, .BACK_YARD_DOOR]

/-- `get_sensor(key)` for a topic key: the `_SENSORS` dict also maps each
sensor's `mqtt_topic` to it; configured topics are distinct, so lookup is
the position whose sensor carries that topic, `none` for an unknown topic
(the Python raises `ValueError`). -/
def find_position_by_topic (reg : Sensors) (topic : String) : Option Position :=
  all_positions.find? (fun p => (get_sensor reg p).mqtt_topic == topic)

/-- `contactsensor/mqtt.py` `_update_sensor`: resolve the topic (unknown
topic: log and return), parse the payload and extract `contact` (on
`JSONDecodeError`/`AssertionError`: log and return), then
`sensor.set_is_contact(is_contact)`.  Returns the (possibly unchanged)
registry. -/
def _update_sensor (reg : Sensors) (message : Message) (now_ns : Nat) : Sensors :=
  match find_position_by_topic reg message.topic with
  | none => reg
  | some p =>
    match parse_payload message.payload with
    | .error _ => reg
    | .ok payload =>
      match get_bool payload "contact" with
      | .error _ => reg
      | .ok is_contact => set_sensor reg p (set_is_contact (get_sensor reg p) is_contact now_ns)

/-- The parse-then-extract pipeline of `_update_sensor`, as an `Option`:
`some b` iff the payload is a well-formed report with `contact` boolean `b`. -/
def contact_of (p : Payload) : Option Bool :=
  match parse_payload p with
  | .error _ => none
  | .ok fields =>
    match get_bool fields "contact" with
    | .error _ => none
    | .ok b => some b

/-- A `ContactSensor` as the dataclass constructor builds it in
`_process_flags`: defaults `_is_contact = False`, `last_updated_ns = None`,
a fresh unset `Event`. -/
def initial_sensor (topic : String) : ContactSensor :=
  { is_contact := false, last_updated_ns := none, event := false, mqtt_topic := topic }

/-- The initial-state step of `_process_flags`: when the configured
`INITIAL_STATES` entry is not `-1`, call `set_is_contact(bool(initial_state))`
(Python `bool(int)` is `int != 0`) at startup time `now_ns`. -/
def apply_initial_state (s : ContactSensor) (initial_state : Int) (now_ns : Nat) :
    ContactSensor :=
  if initial_state ≠ -1 then set_is_contact s (initial_state ≠ 0) now_ns else s

/-- Deliver a sequence of inbound reports `(contact value, arrival time)` to
one sensor; each report goes through `set_is_contact` as in
`_update_sensor`. -/
def apply_reports (s : ContactSensor) : List (Bool × Nat) → ContactSensor
  | [] => s
  | r :: rest => apply_reports (set_is_contact s r.1 r.2) rest

/-- Modelled from the spec, for comparison with the source's
`get_is_contact`: the read the spec describes returns `unknown` (`none`)
when the record has never been set or lies outside its validity window,
and the stored boolean otherwise. -/
def isContact_spec_model (s : ContactSensor) (now_ns : Nat)
    (state_validity_s : Nat) : Option Bool :=
  if is_valid s now_ns state_validity_s then some s.is_contact else none

/-- Erase every sensor's timestamp, leaving the stored flags: used to state
that the read path is independent of `last_updated_ns`. -/
def clear_timestamps (reg : Sensors) : Sensors :=
  { fully_closed := { reg.fully_closed with last_updated_ns := none },
    slightly_opened := { reg.slightly_opened with last_updated_ns := none },
    fully_opened := { reg.fully_opened with last_updated_ns := none },
    back_yard_door := { reg.back_yard_door with last_updated_ns := none } }

/-- A sensor that reported contact at time 0 and has not reported since:
stale once the validity window has lapsed. -/
def stale_sensor : ContactSensor :=
  { is_contact := true, last_updated_ns := some 0, event := true, mqtt_topic := "" }

/-- A sensor currently reading contact. -/
def sensor_on : ContactSensor :=
  { is_contact := true, last_updated_ns := some 0, event := true, mqtt_topic := "" }

/-- A sensor currently reading no contact. -/
def sensor_off : ContactSensor :=
  { is_contact := false, last_updated_ns := some 0, event := true, mqtt_topic := "" }

/-- Registry with every sensor in its never-reported startup state. -/
def reg_all_blank : Sensors :=
  { fully_closed := initial_sensor "", slightly_opened := initial_sensor "",
    fully_opened := initial_sensor "", back_yard_door := initial_sensor "" }

/-- Registry reading contact only at `FULLY_CLOSED`. -/
def reg_closed_only : Sensors :=
  { fully_closed := sensor_on, slightly_opened := sensor_off,
    fully_opened := sensor_off, back_yard_door := sensor_off }

/-- Registry reading contact only at `SLIGHTLY_OPENED`. -/
def reg_ajar_only : Sensors :=
  { fully_closed := sensor_off, slightly_opened := sensor_on,
    fully_opened := sensor_off, back_yard_door := sensor_off }

/-- Registry reading contact only at `FULLY_OPENED`. -/
def reg_open_only : Sensors :=
  { fully_closed := sensor_off, slightly_opened := sensor_off,
    fully_opened := sensor_on, back_yard_door := sensor_off }

/-- Registry with fabricated simultaneous contact at `SLIGHTLY_OPENED` and
`FULLY_OPENED` (and at the auxiliary back-yard sensor). -/
def reg_ajar_and_open : Sensors :=
  { fully_closed := sensor_off, slightly_opened := sensor_on,
    fully_opened := sensor_on, back_yard_door := sensor_on }

/-- A wait oracle that never fires; placeholder for waits a run never
consults. -/
def wait_dummy : WaitEnv :=
  { regStart := reg_all_blank, notified := false, regWake := reg_all_blank }

/-- `to_fully_closed` environment for a run where the probe observes
`FULLY_OPENED`, and the enter-`SLIGHTLY_OPENED` wait on the reversing
branch then times out (`notified = false`). -/
def env_c2 : ActionEnv :=
  { reg0 := reg_all_blank,
    probe := { regStart := reg_all_blank, notified := true, regWake := reg_open_only },
    wait1 := { regStart := reg_open_only, notified := false, regWake := reg_open_only },
    wait2 := wait_dummy, wait3 := wait_dummy, wait4 := wait_dummy,
    regFinal := reg_closed_only }

/-- `to_fully_closed` environment for a complete reversing run: the probe
observes `FULLY_OPENED`, every wait on the reversing branch succeeds, and
the final registry reads contact only at `FULLY_CLOSED`. -/
def env_c5 : ActionEnv :=
  { reg0 := reg_all_blank,
    probe := { regStart := reg_all_blank, notified := true, regWake := reg_open_only },
    wait1 := { regStart := reg_open_only, notified := true, regWake := reg_ajar_only },
    wait2 := { regStart := reg_ajar_only, notified := true, regWake := reg_all_blank },
    wait3 := { regStart := reg_all_blank, notified := true, regWake := reg_closed_only },
    wait4 := wait_dummy,
    regFinal := reg_closed_only }

/-- `to_slightly_opened` environment for a run starting at `FULLY_CLOSED`
in which no report ever arrives: the exit-from-`FULLY_CLOSED` wait times
out. -/
def env_c6 : AjarEnv :=
  { reg0 := reg_closed_only,
    exitCur := { regStart := reg_closed_only, notified := false, regWake := reg_closed_only },
    ajar := .outerTimeout,
    regFinal := reg_closed_only }

/-- `to_slightly_opened` environment for a run starting at `FULLY_CLOSED`
whose exit wait succeeds and whose ajar wait ends in the outer
ajar-transition timeout. -/
def env_c6_timeout : AjarEnv :=
  { reg0 := reg_closed_only,
    exitCur := { regStart := reg_closed_only, notified := true, regWake := reg_all_blank },
    ajar := .outerTimeout,
    regFinal := reg_all_blank }

/-- An environment whose registry already reads the relevant target
positions; used to instantiate the idempotence theorem. -/
def env_noop : ActionEnv :=
  { reg0 := reg_closed_only,
    probe := wait_dummy, wait1 := wait_dummy, wait2 := wait_dummy,
    wait3 := wait_dummy, wait4 := wait_dummy,
    regFinal := reg_all_blank }

/-- `to_fully_closed` environment for a run starting at `FULLY_OPENED`
whose probe wait times out: the door never reports entering
`FULLY_OPENED` during the probe. -/
def env_c2w : ActionEnv :=
  { reg0 := reg_open_only,
    probe := wait_dummy, wait1 := wait_dummy, wait2 := wait_dummy,
    wait3 := wait_dummy, wait4 := wait_dummy,
    regFinal := reg_closed_only }

/-- A registry with distinct topics bound to the four sensors. -/
def reg_c9 : Sensors :=
  { fully_closed := initial_sensor "home/fc", slightly_opened := initial_sensor "home/so",
    fully_opened := initial_sensor "home/fo", back_yard_door := initial_sensor "home/byd" }

/-- A message on a bound topic whose `contact` field is a number, not a
boolean. -/
def msg_bad_contact : Message :=
  { topic := "home/fc", payload := .decoded (.obj [("contact", .num 1)]) }

/-- A well-formed report on a topic bound to no sensor. -/
def msg_unknown_topic : Message :=
  { topic := "home/nope", payload := .decoded (.obj [("contact", .bool true)]) }

lemma apply_reports_last_updated_none (s : ContactSensor)
    (reports : List (Bool × Nat)) :
    (apply_reports s reports).last_updated_ns = none ↔
      (reports = [] ∧ s.last_updated_ns = none) := by
  induction reports generalizing s with
  | nil => simp [apply_reports]
  | cons r rest ih => simp [apply_reports, ih, set_is_contact]

/-- C1 counterexample: the claim says the read operation returns `unknown`
for a record outside its validity window and for a never-set record.  At
the concrete inputs below it does neither: a record last set at t = 0 read
at t = 61 s under a 60 s validity window is invalid yet still reads
`some true`, and a never-set record reads `some false` rather than
`unknown` — the code checks validity only in `__str__`, never on the read
path. -/
theorem c1_counterexample :
    is_valid stale_sensor (61 * 10 ^ 9) 60 = false ∧
    get_is_contact stale_sensor = some true ∧
    (initial_sensor "").last_updated_ns = none ∧
    get_is_contact (initial_sensor "") = some false := by
  refine ⟨by decide, rfl, rfl, rfl⟩

/-- C1 (amended): `get_is_contact` always returns the stored boolean —
`some false` for a never-set record — ignoring the validity window; the
spec-modelled read agrees with it exactly on valid records and returns
`unknown` on invalid ones where the code does not; and `at(P)` is
independent of every `last_updated_ns` timestamp. -/
theorem c1_amended_read_ignores_validity (s : ContactSensor) (now_ns v : Nat)
    (reg : Sensors) (p : Position) :
    get_is_contact s = some s.is_contact ∧
    (is_valid s now_ns v = true → isContact_spec_model s now_ns v = get_is_contact s) ∧
    (is_valid s now_ns v = false →
      isContact_spec_model s now_ns v = none ∧ get_is_contact s = some s.is_contact) ∧
    atPos (clear_timestamps reg) p = atPos reg p := by
  refine ⟨rfl, ?_, ?_, ?_⟩
  · intro h; simp [isContact_spec_model, h, get_is_contact]
  · intro h; exact ⟨by simp [isContact_spec_model, h], rfl⟩
  · cases p <;> rfl

/-- Witness for the amended C1 at the stale sensor and a concrete registry. -/
theorem c1_amended_witness :
    isContact_spec_model stale_sensor (61 * 10 ^ 9) 60 = none ∧
    atPos (clear_timestamps reg_closed_only) .FULLY_CLOSED = atPos reg_closed_only .FULLY_CLOSED :=
  ⟨((c1_amended_read_ignores_validity stale_sensor (61 * 10 ^ 9) 60 reg_closed_only
      .FULLY_CLOSED).2.2.1 (by decide)).1,
   (c1_amended_read_ignores_validity stale_sensor (61 * 10 ^ 9) 60 reg_closed_only
      .FULLY_CLOSED).2.2.2⟩

/-- C3: `_enter(P, T)` returns failure immediately when `at(P)` already
holds at the start; returns failure when the notification does not fire
within the timeout; and after a notification fires it succeeds exactly when
`at(P)` holds at wake time (a wake with `at(P)` still false is spurious and
fails). -/
theorem c3_enter_semantics (p : Position) (regStart regWake : Sensors)
    (notified : Bool) :
    (atPos regStart p = true → _enter p regStart notified regWake = false) ∧
    (atPos regStart p = false → notified = false →
      _enter p regStart notified regWake = false) ∧
    (atPos regStart p = false → notified = true →
      (_enter p regStart notified regWake = true ↔ atPos regWake p = true)) := by
  refine ⟨?_, ?_, ?_⟩
  · intro h; simp [_enter, h]
  · intro h hn; simp [_enter, h, hn]
  · intro h hn; cases hw : atPos regWake p <;> simp [_enter, h, hn, hw]

/-- Witness for C3: with the door not at `SLIGHTLY_OPENED`, a notification,
and a wake-time registry reading contact there, `_enter` succeeds. -/
theorem c3_witness :
    _enter .SLIGHTLY_OPENED reg_all_blank true reg_ajar_and_open = true :=
  ((c3_enter_semantics .SLIGHTLY_OPENED reg_all_blank reg_ajar_and_open true).2.2
    (by decide) rfl).mpr (by decide)

/-- C4: `where()` scans `FULLY_CLOSED`, `SLIGHTLY_OPENED`, `FULLY_OPENED`
in that order and returns the first position read as contact, `none` when
none is; in particular with `SLIGHTLY_OPENED` and `FULLY_OPENED`
simultaneously true it returns `SLIGHTLY_OPENED`. -/
theorem c4_where_first_true_in_canonical_order (reg : Sensors) :
    (atPos reg .FULLY_CLOSED = true → whereDoor reg = some .FULLY_CLOSED) ∧
    (atPos reg .FULLY_CLOSED = false → atPos reg .SLIGHTLY_OPENED = true →
      whereDoor reg = some .SLIGHTLY_OPENED) ∧
    (atPos reg .FULLY_CLOSED = false → atPos reg .SLIGHTLY_OPENED = false →
      atPos reg .FULLY_OPENED = true → whereDoor reg = some .FULLY_OPENED) ∧
    (atPos reg .FULLY_CLOSED = false → atPos reg .SLIGHTLY_OPENED = false →
      atPos reg .FULLY_OPENED = false → whereDoor reg = none) ∧
    (atPos reg .FULLY_CLOSED = false → atPos reg .SLIGHTLY_OPENED = true →
      atPos reg .FULLY_OPENED = true → whereDoor reg = some .SLIGHTLY_OPENED) := by
  refine ⟨?_, ?_, ?_, ?_, ?_⟩ <;>
    intros <;> simp [whereDoor, where_list, canonical_positions, *]

/-- Witness for C4 at the fabricated ajar-and-open registry. -/
theorem c4_witness : whereDoor reg_ajar_and_open = some .SLIGHTLY_OPENED :=
  (c4_where_first_true_in_canonical_order reg_ajar_and_open).2.2.2.2
    (by decide) (by decide) (by decide)

/-- C8 counterexample: the claim says `last_updated_ns` is set iff at least
one inbound report has been received, and that a never-reported sensor is
never an explicit `false`.  At the concrete input below, a sensor given a
configured initial state at startup (`INITIAL_STATES` entry `1`, applied by
`_process_flags` through `set_is_contact`) has `last_updated_ns` set with
zero inbound reports delivered; and a never-reported sensor reads
`some false` (the dataclass default), exactly an explicit false. -/
theorem c8_counterexample :
    (apply_reports (apply_initial_state (initial_sensor "t") 1 7) []).last_updated_ns
      = some 7 ∧
    get_is_contact (initial_sensor "t") = some false := by
  exact ⟨by decide, rfl⟩

/-- C8 (amended): `last_updated_ns` is set iff `set_is_contact` has run at
least once — that is, iff at least one inbound report was delivered or a
configured initial state (entry other than `-1`) was applied at startup;
and a sensor on which it never ran still reads `some false`. -/
theorem c8_amended_last_update_iff_set (topic : String) (init : Int)
    (now_ns : Nat) (reports : List (Bool × Nat)) :
    ((apply_reports (apply_initial_state (initial_sensor topic) init now_ns)
        reports).last_updated_ns ≠ none ↔ (reports ≠ [] ∨ init ≠ -1)) ∧
    get_is_contact (apply_reports (apply_initial_state (initial_sensor topic) (-1)
        now_ns) []) = some false := by
  constructor
  · rw [Ne, apply_reports_last_updated_none]
    have : (apply_initial_state (initial_sensor topic) init now_ns).last_updated_ns
        = none ↔ init = -1 := by
      by_cases h : init = -1 <;>
        simp [apply_initial_state, set_is_contact, initial_sensor, h]
    rw [this]
    tauto
  · rfl

/-- Witness for the amended C8: an initial state with zero reports leaves
the timestamp set. -/
theorem c8_amended_witness :
    (apply_reports (apply_initial_state (initial_sensor "t") 1 7) []).last_updated_ns
      ≠ none :=
  (c8_amended_last_update_iff_set "t" 1 7 []).1.mpr (Or.inr (by decide))

/-- C9: a report whose topic is bound to no sensor, or whose payload fails
decoding or lacks a boolean `contact` field, leaves the whole registry —
every sensor's contact flag, timestamp and event — unchanged. -/
theorem c9_malformed_or_unknown_report_drops (reg : Sensors) (message : Message)
    (now_ns : Nat) :
    (find_position_by_topic reg message.topic = none →
      _update_sensor reg message now_ns = reg) ∧
    (contact_of message.payload = none → _update_sensor reg message now_ns = reg) := by
  constructor
  · intro h; simp [_update_sensor, h]
  · intro h
    unfold _update_sensor
    cases hf : find_position_by_topic reg message.topic with
    | none => rfl
    | some p =>
      cases hp : parse_payload message.payload with
      | error e => rfl
      | ok fields =>
        cases hg : get_bool fields "contact" with
        | error e => simp [hg]
        | ok b =>
          exfalso
          have hcb : contact_of message.payload = some b := by
            unfold contact_of
            rw [hp]
            simp [hg]
          rw [h] at hcb
          exact Option.noConfusion hcb

/-- Witness for C9: a bad `contact` type and an unknown topic both leave a
concrete registry unchanged. -/
theorem c9_witness :
    _update_sensor reg_c9 msg_bad_contact 3 = reg_c9 ∧
    _update_sensor reg_c9 msg_unknown_topic 3 = reg_c9 :=
  ⟨(c9_malformed_or_unknown_report_drops reg_c9 msg_bad_contact 3).2 (by decide),
   (c9_malformed_or_unknown_report_drops reg_c9 msg_unknown_topic 3).1 (by decide)⟩

/-- C10: `where()` with its default argument never returns
`BACK_YARD_DOOR`, and the auxiliary back-yard sensor's state has no
influence on its result. -/
theorem c10_back_yard_door_never_influences_where (reg : Sensors)
    (s : ContactSensor) :
    whereDoor reg ≠ some .BACK_YARD_DOOR ∧
    whereDoor { reg with back_yard_door := s } = whereDoor reg := by
  constructor
  · intro h
    simp only [whereDoor, canonical_positions, where_list] at h
    split_ifs at h <;> simp_all
  · rfl

/-- Witness for C10 at a registry whose back-yard sensor reads contact. -/
theorem c10_witness : whereDoor reg_ajar_and_open ≠ some .BACK_YARD_DOOR :=
  (c10_back_yard_door_never_influences_where reg_ajar_and_open sensor_on).1

/-- C7: when `where()` already equals the action's target — or, for
`to_slightly_opened`, equals `FULLY_OPENED` (unreachable by one pulse) or
no position at all — the action returns immediately with an empty step
trace: zero actuator pulses; in particular `to_fully_closed` while
`where() == FULLY_CLOSED` pulses zero times and returns at once. -/
theorem c7_idempotent_noop :
    (∀ env : ActionEnv, whereDoor env.reg0 = some .FULLY_CLOSED →
      to_fully_closed env = { steps := [], outcome := .noop }) ∧
    (∀ env : ActionEnv, whereDoor env.reg0 = some .FULLY_OPENED →
      to_fully_opened env = { steps := [], outcome := .noop }) ∧
    (∀ env : AjarEnv, whereDoor env.reg0 = some .SLIGHTLY_OPENED →
      to_slightly_opened env = { steps := [], outcome := .noop }) ∧
    (∀ env : AjarEnv, whereDoor env.reg0 = some .FULLY_OPENED →
      to_slightly_opened env = { steps := [], outcome := .noop }) ∧
    (∀ env : AjarEnv, whereDoor env.reg0 = none →
      to_slightly_opened env = { steps := [], outcome := .noop }) := by
  refine ⟨?_, ?_, ?_, ?_, ?_⟩ <;> intro env h <;>
    simp [to_fully_closed, to_fully_opened, to_slightly_opened, h]

/-- Witness for C7: `to_fully_closed` on a registry already reading
`FULLY_CLOSED` performs no step. -/
theorem c7_witness :
    to_fully_closed env_noop = { steps := [], outcome := .noop } :=
  c7_idempotent_noop.1 env_noop (by decide)

/-- C2 counterexample: in `to_fully_closed`, with the probe observing
`FULLY_OPENED` and the following enter-`SLIGHTLY_OPENED` wait timing out
(`notified = false`), the run ends in an `AssertionError` at that
intermediate wait and the final verification steps never execute —
contradicting the claim that a timed-out intermediate wait never terminates
the sequence and that only the final verification step may report failure. -/
theorem c2_counterexample :
    env_c2.wait1.notified = false ∧
    (to_fully_closed env_c2).outcome = .assertionError (.waitEnter .SLIGHTLY_OPENED) ∧
    Step.verifyAt .FULLY_CLOSED ∉ (to_fully_closed env_c2).steps ∧
    Step.verifyNotAt .SLIGHTLY_OPENED ∉ (to_fully_closed env_c2).steps ∧
    Step.verifyNotAt .FULLY_OPENED ∉ (to_fully_closed env_c2).steps := by decide

/-- C2 (amended): only the initial wrong-direction probe wait of
`to_fully_closed` / `to_fully_opened` is protected — on its failure the
sequence proceeds directly to final verification.  A failed wait on the
reversing branch, or the exit-from-current-position wait of
`to_slightly_opened`, raises an uncaught `AssertionError` that terminates
the sequence before final verification; in `to_slightly_opened` only the
outer ajar-transition timeout is caught. -/
theorem c2_amended_only_probe_wait_protected :
    (∀ env : ActionEnv, whereDoor env.reg0 ≠ some .FULLY_CLOSED →
      _enter .FULLY_OPENED env.probe.regStart env.probe.notified env.probe.regWake = false →
      to_fully_closed env = final_check_closed [.pulse, .waitEnter .FULLY_OPENED] env.regFinal) ∧
    (∀ env : ActionEnv, whereDoor env.reg0 ≠ some .FULLY_CLOSED →
      _enter .FULLY_OPENED env.probe.regStart env.probe.notified env.probe.regWake = true →
      _enter .SLIGHTLY_OPENED env.wait1.regStart env.wait1.notified env.wait1.regWake = false →
      to_fully_closed env =
        { steps := [.pulse, .waitEnter .FULLY_OPENED, .pulse, .waitEnter .SLIGHTLY_OPENED],
          outcome := .assertionError (.waitEnter .SLIGHTLY_OPENED) }) ∧
    (∀ env : ActionEnv, whereDoor env.reg0 ≠ some .FULLY_CLOSED →
      _enter .FULLY_OPENED env.probe.regStart env.probe.notified env.probe.regWake = true →
      _enter .SLIGHTLY_OPENED env.wait1.regStart env.wait1.notified env.wait1.regWake = true →
      _exit .SLIGHTLY_OPENED env.wait2.regStart env.wait2.notified env.wait2.regWake = false →
      to_fully_closed env =
        { steps := [.pulse, .waitEnter .FULLY_OPENED, .pulse, .waitEnter .SLIGHTLY_OPENED,
                    .waitExit .SLIGHTLY_OPENED],
          outcome := .assertionError (.waitExit .SLIGHTLY_OPENED) }) ∧
    (∀ env : ActionEnv, whereDoor env.reg0 ≠ some .FULLY_CLOSED →
      _enter .FULLY_OPENED env.probe.regStart env.probe.notified env.probe.regWake = true →
      _enter .SLIGHTLY_OPENED env.wait1.regStart env.wait1.notified env.wait1.regWake = true →
      _exit .SLIGHTLY_OPENED env.wait2.regStart env.wait2.notified env.wait2.regWake = true →
      _enter .FULLY_CLOSED env.wait3.regStart env.wait3.notified env.wait3.regWake = false →
      to_fully_closed env =
        { steps := [.pulse, .waitEnter .FULLY_OPENED, .pulse, .waitEnter .SLIGHTLY_OPENED,
                    .waitExit .SLIGHTLY_OPENED, .waitEnter .FULLY_CLOSED],
          outcome := .assertionError (.waitEnter .FULLY_CLOSED) }) ∧
    (∀ env : ActionEnv, whereDoor env.reg0 ≠ some .FULLY_OPENED →
      _enter .FULLY_CLOSED env.probe.regStart env.probe.notified env.probe.regWake = false →
      to_fully_opened env = final_check_opened [.pulse, .waitEnter .FULLY_CLOSED] env.regFinal) ∧
    (∀ env : ActionEnv, whereDoor env.reg0 ≠ some .FULLY_OPENED →
      _enter .FULLY_CLOSED env.probe.regStart env.probe.notified env.probe.regWake = true →
      _exit .FULLY_CLOSED env.wait1.regStart env.wait1.notified env.wait1.regWake = false →
      to_fully_opened env =
        { steps := [.pulse, .waitEnter .FULLY_CLOSED, .pulse, .waitExit .FULLY_CLOSED],
          outcome := .assertionError (.waitExit .FULLY_CLOSED) }) ∧
    (∀ env : ActionEnv, whereDoor env.reg0 ≠ some .FULLY_OPENED →
      _enter .FULLY_CLOSED env.probe.regStart env.probe.notified env.probe.regWake = true →
      _exit .FULLY_CLOSED env.wait1.regStart env.wait1.notified env.wait1.regWake = true →
      _enter .SLIGHTLY_OPENED env.wait2.regStart env.wait2.notified env.wait2.regWake = false →
      to_fully_opened env =
        { steps := [.pulse, .waitEnter .FULLY_CLOSED, .pulse, .waitExit .FULLY_CLOSED,
                    .waitEnter .SLIGHTLY_OPENED],
          outcome := .assertionError (.waitEnter .SLIGHTLY_OPENED) }) ∧
    (∀ env : ActionEnv, whereDoor env.reg0 ≠ some .FULLY_OPENED →
      _enter .FULLY_CLOSED env.probe.regStart env.probe.notified env.probe.regWake = true →
      _exit .FULLY_CLOSED env.wait1.regStart env.wait1.notified env.wait1.regWake = true →
      _enter .SLIGHTLY_OPENED env.wait2.regStart env.wait2.notified env.wait2.regWake = true →
      _exit .SLIGHTLY_OPENED env.wait3.regStart env.wait3.notified env.wait3.regWake = false →
      to_fully_opened env =
        { steps := [.pulse, .waitEnter .FULLY_CLOSED, .pulse, .waitExit .FULLY_CLOSED,
                    .waitEnter .SLIGHTLY_OPENED, .waitExit .SLIGHTLY_OPENED],
          outcome := .assertionError (.waitExit .SLIGHTLY_OPENED) }) ∧
    (∀ env : ActionEnv, whereDoor env.reg0 ≠ some .FULLY_OPENED →
      _enter .FULLY_CLOSED env.probe.regStart env.probe.notified env.probe.regWake = true →
      _exit .FULLY_CLOSED env.wait1.regStart env.wait1.notified env.wait1.regWake = true →
      _enter .SLIGHTLY_OPENED env.wait2.regStart env.wait2.notified env.wait2.regWake = true →
      _exit .SLIGHTLY_OPENED env.wait3.regStart env.wait3.notified env.wait3.regWake = true →
      _enter .FULLY_OPENED env.wait4.regStart env.wait4.notified env.wait4.regWake = false →
      to_fully_opened env =
        { steps := [.pulse, .waitEnter .FULLY_CLOSED, .pulse, .waitExit .FULLY_CLOSED,
                    .waitEnter .SLIGHTLY_OPENED, .waitExit .SLIGHTLY_OPENED,
                    .waitEnter .FULLY_OPENED],
          outcome := .assertionError (.waitEnter .FULLY_OPENED) }) ∧
    (∀ env : AjarEnv, whereDoor env.reg0 = some .FULLY_CLOSED →
      _exit .FULLY_CLOSED env.exitCur.regStart env.exitCur.notified env.exitCur.regWake = false →
      to_slightly_opened env =
        { steps := [.pulse, .waitExit .FULLY_CLOSED],
          outcome := .assertionError (.waitExit .FULLY_CLOSED) }) := by
  refine ⟨?_, ?_, ?_, ?_, ?_, ?_, ?_, ?_, ?_, ?_⟩
  · intro env h0 hp; simp [to_fully_closed, h0, hp]
  · intro env h0 hp h1; simp [to_fully_closed, h0, hp, h1]
  · intro env h0 hp h1 h2; simp [to_fully_closed, h0, hp, h1, h2]
  · intro env h0 hp h1 h2 h3; simp [to_fully_closed, h0, hp, h1, h2, h3]
  · intro env h0 hp; simp [to_fully_opened, h0, hp]
  · intro env h0 hp h1; simp [to_fully_opened, h0, hp, h1]
  · intro env h0 hp h1 h2; simp [to_fully_opened, h0, hp, h1, h2]
  · intro env h0 hp h1 h2 h3; simp [to_fully_opened, h0, hp, h1, h2, h3]
  · intro env h0 hp h1 h2 h3 h4; simp [to_fully_opened, h0, hp, h1, h2, h3, h4]
  · intro env h0 hx; simp [to_slightly_opened, h0, hx]

/-- Witness for the amended C2: a failed probe in `to_fully_closed` leads
straight to the final verification block. -/
theorem c2_amended_witness :
    to_fully_closed env_c2w =
      final_check_closed [.pulse, .waitEnter .FULLY_OPENED] env_c2w.regFinal :=
  c2_amended_only_probe_wait_protected.1 env_c2w (by decide) (by decide)

/-- C5 counterexample: in a complete reversing run of `to_fully_closed`
(probe observes `FULLY_OPENED`, every later wait succeeds, final checks
pass) the executed steps contain no exit-from-`FULLY_OPENED` wait — that
wait is commented out in the source — contradicting the claim that the
action waits for exit-from-`FULLY_OPENED` before enter-`AJAR`. -/
theorem c5_counterexample :
    (to_fully_closed env_c5).steps =
      [.pulse, .waitEnter .FULLY_OPENED, .pulse, .waitEnter .SLIGHTLY_OPENED,
       .waitExit .SLIGHTLY_OPENED, .waitEnter .FULLY_CLOSED, .verifyAt .FULLY_CLOSED,
       .verifyNotAt .SLIGHTLY_OPENED, .verifyNotAt .FULLY_OPENED] ∧
    Step.waitExit .FULLY_OPENED ∉ (to_fully_closed env_c5).steps ∧
    (to_fully_closed env_c5).outcome = .done := by decide

/-- C5 (amended): after the initial pulse, when the door is observed
entering `FULLY_OPENED` the action pulses again and waits, in order, for
enter-`AJAR`, exit-`AJAR` and enter-`FULLY_CLOSED` — the
exit-from-`FULLY_OPENED` wait is deliberately skipped — each wait bounded
by its own timeout, and finally asserts `at(FULLY_CLOSED)` and not-at the
other two positions. -/
theorem c5_amended_reverse_sequence (env : ActionEnv)
    (h0 : whereDoor env.reg0 ≠ some .FULLY_CLOSED)
    (hp : _enter .FULLY_OPENED env.probe.regStart env.probe.notified env.probe.regWake = true)
    (h1 : _enter .SLIGHTLY_OPENED env.wait1.regStart env.wait1.notified env.wait1.regWake = true)
    (h2 : _exit .SLIGHTLY_OPENED env.wait2.regStart env.wait2.notified env.wait2.regWake = true)
    (h3 : _enter .FULLY_CLOSED env.wait3.regStart env.wait3.notified env.wait3.regWake = true)
    (hf1 : atPos env.regFinal .FULLY_CLOSED = true)
    (hf2 : atPos env.regFinal .SLIGHTLY_OPENED = false)
    (hf3 : atPos env.regFinal .FULLY_OPENED = false) :
    (to_fully_closed env).steps =
      [.pulse, .waitEnter .FULLY_OPENED, .pulse, .waitEnter .SLIGHTLY_OPENED,
       .waitExit .SLIGHTLY_OPENED, .waitEnter .FULLY_CLOSED, .verifyAt .FULLY_CLOSED,
       .verifyNotAt .SLIGHTLY_OPENED, .verifyNotAt .FULLY_OPENED] ∧
    Step.waitExit .FULLY_OPENED ∉ (to_fully_closed env).steps ∧
    (to_fully_closed env).outcome = .done := by
  have hrun : to_fully_closed env =
      final_check_closed
        [.pulse, .waitEnter .FULLY_OPENED, .pulse, .waitEnter .SLIGHTLY_OPENED,
         .waitExit .SLIGHTLY_OPENED, .waitEnter .FULLY_CLOSED] env.regFinal := by
    simp [to_fully_closed, h0, hp, h1, h2, h3]
  rw [hrun]
  simp [final_check_closed, hf1, hf2, hf3]

/-- Witness for the amended C5 at the complete reversing environment. -/
theorem c5_amended_witness : (to_fully_closed env_c5).outcome = .done :=
  (c5_amended_reverse_sequence env_c5 (by decide) (by decide) (by decide) (by decide)
    (by decide) (by decide) (by decide) (by decide)).2.2

/-- C6 counterexample: a run of `to_slightly_opened` from `FULLY_CLOSED`
that issues the first pulse and in which no report at all — hence no ajar
report — arrives within any timeout: the exit-from-`FULLY_CLOSED` wait
times out, an uncaught `AssertionError` ends the run with exactly one
pulse issued, no stop pulse, and no final verification — contradicting the
claim that such a run still issues the stop pulse and completes. -/
theorem c6_counterexample :
    (to_slightly_opened env_c6).steps = [.pulse, .waitExit .FULLY_CLOSED] ∧
    (to_slightly_opened env_c6).steps.count .pulse = 1 ∧
    (to_slightly_opened env_c6).outcome = .assertionError (.waitExit .FULLY_CLOSED) := by
  decide

/-- C6 (amended): in a run of `to_slightly_opened` from `FULLY_CLOSED`
whose exit-from-`FULLY_CLOSED` wait succeeds, the stop pulse is always
issued (two pulses total) whatever the ajar wait does, the verification
never asserts ajar, and when the ajar wait ends by the outer
ajar-transition timeout the run proceeds to the final verification block,
which checks only not-`FULLY_CLOSED` and not-`FULLY_OPENED`.  When the
exit wait itself times out, the run aborts at that wait with a single
pulse and no verification. -/
theorem c6_amended_stop_pulse_after_exit (env : AjarEnv)
    (hwhere : whereDoor env.reg0 = some .FULLY_CLOSED) :
    (_exit .FULLY_CLOSED env.exitCur.regStart env.exitCur.notified env.exitCur.regWake = true →
      ((to_slightly_opened env).steps.count .pulse = 2 ∧
       Step.verifyAt .SLIGHTLY_OPENED ∉ (to_slightly_opened env).steps ∧
       Step.verifyNotAt .SLIGHTLY_OPENED ∉ (to_slightly_opened env).steps ∧
       (env.ajar = .outerTimeout →
         to_slightly_opened env =
           final_check_ajar
             [.pulse, .waitExit .FULLY_CLOSED, .waitEnter .SLIGHTLY_OPENED, .pulse]
             env.regFinal) ∧
       (∀ w : WaitEnv, env.ajar = .completed w →
         _enter .SLIGHTLY_OPENED w.regStart w.notified w.regWake = false →
         to_slightly_opened env =
           { steps := [.pulse, .waitExit .FULLY_CLOSED, .waitEnter .SLIGHTLY_OPENED,
                       .pulse],
             outcome := .assertionError (.waitEnter .SLIGHTLY_OPENED) }))) ∧
    (_exit .FULLY_CLOSED env.exitCur.regStart env.exitCur.notified env.exitCur.regWake = false →
      ((to_slightly_opened env).steps.count .pulse = 1 ∧
       (to_slightly_opened env).outcome = .assertionError (.waitExit .FULLY_CLOSED))) := by
  constructor
  · intro hx
    cases hajar : env.ajar with
    | outerTimeout =>
      have hrun : to_slightly_opened env =
          final_check_ajar
            [.pulse, .waitExit .FULLY_CLOSED, .waitEnter .SLIGHTLY_OPENED, .pulse]
            env.regFinal := by
        simp [to_slightly_opened, hwhere, hx, hajar]
      refine ⟨?_, ?_, ?_, fun _ => hrun, ?_⟩
      · rw [hrun]; unfold final_check_ajar; split_ifs <;> decide
      · rw [hrun]; unfold final_check_ajar; split_ifs <;> decide
      · rw [hrun]; unfold final_check_ajar; split_ifs <;> decide
      · intro w hcontra _; exact absurd hcontra (by simp)
    | completed w =>
      by_cases henter :
          _enter .SLIGHTLY_OPENED w.regStart w.notified w.regWake = true
      · have hrun : to_slightly_opened env =
            final_check_ajar
              [.pulse, .waitExit .FULLY_CLOSED, .waitEnter .SLIGHTLY_OPENED, .pulse]
              env.regFinal := by
          simp [to_slightly_opened, hwhere, hx, hajar, henter]
        refine ⟨?_, ?_, ?_, ?_, ?_⟩
        · rw [hrun]; unfold final_check_ajar; split_ifs <;> decide
        · rw [hrun]; unfold final_check_ajar; split_ifs <;> decide
        · rw [hrun]; unfold final_check_ajar; split_ifs <;> decide
        · intro hcontra; exact absurd hcontra (by simp)
        · intro w2 heq henter2
          injection heq with hww
          subst hww
          exact absurd henter (by simp [henter2])
      · have henter' : _enter .SLIGHTLY_OPENED w.regStart w.notified w.regWake = false := by
          simpa using henter
        have hrun : to_slightly_opened env =
            { steps := [.pulse, .waitExit .FULLY_CLOSED, .waitEnter .SLIGHTLY_OPENED,
                        .pulse],
              outcome := .assertionError (.waitEnter .SLIGHTLY_OPENED) } := by
          simp [to_slightly_opened, hwhere, hx, hajar, henter']
        refine ⟨?_, ?_, ?_, ?_, ?_⟩
        · rw [hrun]; decide
        · rw [hrun]; decide
        · rw [hrun]; decide
        · intro hcontra; exact absurd hcontra (by simp)
        · intro w2 heq henter2
          exact hrun
  · intro hx
    have hrun : to_slightly_opened env =
        { steps := [.pulse, .waitExit .FULLY_CLOSED],
          outcome := .assertionError (.waitExit .FULLY_CLOSED) } := by
      simp [to_slightly_opened, hwhere, hx]
    rw [hrun]
    exact ⟨by decide, rfl⟩

/-- Witness for the amended C6: exit succeeds, the outer ajar timeout
fires, the stop pulse is issued and the run reaches final verification. -/
theorem c6_amended_witness :
    (to_slightly_opened env_c6_timeout).steps.count .pulse = 2 :=
  ((c6_amended_stop_pulse_after_exit env_c6_timeout (by decide)).1 (by decide)).1

end GarageDoorAutomation
